import Mathlib

/-!
Verification of the Checklist++ task status/kanban model, store and
markdown bridge, as a shallow embedding of src/checklistplusplus.py
(and the near-duplicate src/Checklist++.py where cited).

Modelling conventions:
- A Python task dict is the structure `Task`. The keys `task`, `completed`,
  `start_time`, `time_spent`, `priority`, `progress` are always written by
  every task-creating path of the program, so they are plain fields (the
  dict-access defaults `item.get(k, d)` coincide with the field value);
  `status`, `due_date` and `tags` are genuinely optional keys, so they are
  `Option` fields, `none` meaning the key is absent.
- `time_spent` is a Python float; no claim computes with it, so it is
  modelled as an integer.
- Python exceptions that the source catches are modelled by `Option`
  branches returning the handler's message; an exception the source does
  not catch is `Except.error ()` (a crash).
- The JSON file layer is modelled as a `Json` value tree per file name;
  `json.dump`/`json.load` preserve that tree exactly.
-/

namespace ChecklistPP

/-- KANBAN_COLUMNS = ["Todo", "Progress", "Done"] (checklistplusplus.py line 149). -/
def KANBAN_COLUMNS : List String := ["Todo", "Progress", "Done"]

/-- A task record: one entry of the `current_checklist` list of dicts. -/
structure Task where
  task : String
  completed : Bool
  start_time : Int
  time_spent : Int
  priority : String
  progress : Int
  status : Option String
  due_date : Option String
  tags : Option (List String)
deriving Repr, DecidableEq, Inhabited

/-- `_status_for_task` (checklistplusplus.py lines 510-521): the kanban column
of a task; an explicit `status` key is returned verbatim, otherwise the
column is derived from `completed` and `progress`. -/
def status_for_task (item : Task) : String :=
  match item.status with
  | some s => s
  | none =>
    if item.completed then "Done"
    else if item.progress > 0 then "Progress"
    else "Todo"

/-- ASCII whitespace, as stripped by Python `str.strip()`. -/
def pySpace (c : Char) : Bool :=
  c == ' ' || c == '\t' || c == '\n' || c == '\r' || c == '\x0b' || c == '\x0c'

/-- Python `str.strip()` on a character list. -/
def pyStripChars (l : List Char) : List Char :=
  ((l.dropWhile pySpace).reverse.dropWhile pySpace).reverse

/-- Python `str.strip()`. -/
def pyStrip (s : String) : String := String.mk (pyStripChars s.data)

/-- Whether the second list is a prefix of the first. -/
def listStartsWith : List Char → List Char → Bool
  | _, [] => true
  | [], _ :: _ => false
  | a :: as, b :: bs => a == b && listStartsWith as bs

/-- Python `str.startswith`. -/
def pyStartsWith (s p : String) : Bool := listStartsWith s.data p.data

/-- Python `str.split(sep)` for a non-empty separator, on character lists;
the first argument is fuel (any bound above the list length). -/
def listSplitOn (sep : List Char) : Nat → List Char → List Char → List (List Char)
  | 0, acc, l => [acc.reverse ++ l]
  | _ + 1, acc, [] => [acc.reverse]
  | fuel + 1, acc, c :: cs =>
    if listStartsWith (c :: cs) sep then
      acc.reverse :: listSplitOn sep fuel [] ((c :: cs).drop sep.length)
    else listSplitOn sep fuel (c :: acc) cs

/-- Python `str.split(sep)` (non-empty `sep`). -/
def pySplit (s sep : String) : List String :=
  (listSplitOn sep.data (s.data.length + 1) [] s.data).map String.mk

/-- Model of Python `int(str)`: optional surrounding whitespace, optional
sign, then a nonempty run of decimal digits (ValueError otherwise, here
`none`). -/
def digitsToNat (s : List Char) : Nat :=
  s.foldl (fun n c => 10 * n + (c.toNat - 48)) 0

/-- Whether a character list is a nonempty run of decimal digits. -/
def allDigits (s : List Char) : Bool :=
  !s.isEmpty && s.all Char.isDigit

/-- Model of Python `int(...)` on a string (see `digitsToNat`). -/
def pyInt (s : String) : Option Int :=
  let t := pyStripChars s.data
  match t with
  | '-' :: d => if allDigits d then some (-(digitsToNat d : Int)) else none
  | '+' :: d => if allDigits d then some ((digitsToNat d : Int)) else none
  | d => if allDigits d then some ((digitsToNat d : Int)) else none

/-- Model of Python `list.index`: the first position of `x`, or `none` when
absent (where the source raises ValueError). -/
def pyIndex : List String → String → Option Nat
  | [], _ => none
  | y :: ys, x => if y = x then some 0 else (pyIndex ys x).map (· + 1)

/-- Per-task core of `promote_task` (checklistplusplus.py lines 596-603):
look up the current column; when not in the last column, set `status` to the
next column and, when that new status is Done, also set `completed := true`;
otherwise leave the task unchanged. A failed column lookup (`none`) leaves
the task unchanged (the source raises ValueError before any mutation). -/
def promote_step (t : Task) : Task :=
  match pyIndex KANBAN_COLUMNS (status_for_task t) with
  | none => t
  | some idx =>
    if idx < KANBAN_COLUMNS.length - 1 then
      let ns := KANBAN_COLUMNS.getD (idx + 1) ""
      let t1 := { t with status := some ns }
      if ns = "Done" then { t1 with completed := true } else t1
    else t

/-- Per-task core of `regress_task` (checklistplusplus.py lines 619-626):
when not in the first column, set `status` to the previous column and, when
the previous (pre-assignment) status was Done, set `completed := false`. -/
def regress_step (t : Task) : Task :=
  let st := status_for_task t
  match pyIndex KANBAN_COLUMNS st with
  | none => t
  | some idx =>
    if idx > 0 then
      let ns := KANBAN_COLUMNS.getD (idx - 1) ""
      let t1 := { t with status := some ns }
      if st = "Done" then { t1 with completed := false } else t1
    else t

/-- Python string comparison on code-point sequences (used by `sorted` with a
string key). -/
def pyStrLt : List Char → List Char → Bool
  | [], [] => false
  | [], _ :: _ => true
  | _ :: _, [] => false
  | a :: as, b :: bs =>
    if a.toNat < b.toNat then true
    else if b.toNat < a.toNat then false
    else pyStrLt as bs

/-- The sort key of `display_checklist` (both files):
`lambda x: x.get('priority', 'Medium')`. -/
def priorityKey (t : Task) : String := t.priority

/-- Stable descending insertion: `x` goes before the first element whose key
is smaller, after all earlier elements with an equal or larger key. -/
def insertDescBy (key : Task → String) (x : Task) : List Task → List Task
  | [] => [x]
  | y :: ys =>
    if pyStrLt (key y).data (key x).data then x :: y :: ys
    else y :: insertDescBy key x ys

/-- Model of `sorted(current_checklist, key=lambda x: x.get('priority',
'Medium'), reverse=True)` (checklistplusplus.py line 236, Checklist++.py
line 87): a stable sort, descending by the raw priority string. -/
def sorted_checklist (c : List Task) : List Task :=
  c.foldl (fun acc x => insertDescBy priorityKey x acc) []

/-- Stable descending insertion on (original index, task) pairs, same order
as `insertDescBy`. -/
def insertDescByIdx (key : Task → String) (x : Nat × Task) :
    List (Nat × Task) → List (Nat × Task)
  | [] => [x]
  | y :: ys =>
    if pyStrLt (key y.2).data (key x.2).data then x :: y :: ys
    else y :: insertDescByIdx key x ys

/-- The sorted view together with each entry's position in the backing list:
the sorted list of `display_checklist` holds references into
`current_checklist`, so mutating an entry of the sorted view mutates the
task at its original position. -/
def sortedEnum (c : List Task) : List (Nat × Task) :=
  c.enum.foldl (fun acc x => insertDescByIdx priorityKey x acc) []

/-- Return value of `display_checklist()` (checklistplusplus.py lines
230-275): the sorted list — but for an empty checklist the early branch
prints and falls off the function, returning Python None (`none` here). -/
def display_checklist_sorted (c : List Task) : Option (List Task) :=
  if c.isEmpty then none else some (sorted_checklist c)

/-- As `display_checklist_sorted`, with original positions kept (used by
`mark_task`, which mutates through the sorted view). -/
def display_checklist_enum (c : List Task) : Option (List (Nat × Task)) :=
  if c.isEmpty then none else some (sortedEnum c)

/-- Menu operation `promote_task` (checklistplusplus.py lines 589-610).
`Except.error ()` is an uncaught exception: when the checklist view is
active and the checklist is empty, `display_checklist()` returned None and
`len(None)` raises TypeError, which `except ValueError` does not catch.
A caught ValueError (non-numeric input, or a status missing from
KANBAN_COLUMNS) yields the handler's message with the checklist unchanged. -/
def promote_task (kanbanView : Bool) (numStr : String) (c : List Task) :
    Except Unit (List Task × String) :=
  let sortedOpt := if kanbanView then some c else display_checklist_sorted c
  match pyInt numStr with
  | none => Except.ok (c, "Please enter a valid number.")
  | some n =>
    let task_num := n - 1
    if 0 ≤ task_num then
      match sortedOpt with
      | none => Except.error ()
      | some sc =>
        if task_num < (sc.length : Int) then
          let i := task_num.toNat
          let t := c.getD i default
          match pyIndex KANBAN_COLUMNS (status_for_task t) with
          | none => Except.ok (c, "Please enter a valid number.")
          | some idx =>
            if idx < KANBAN_COLUMNS.length - 1 then
              let ns := KANBAN_COLUMNS.getD (idx + 1) ""
              let t1 := { t with status := some ns }
              let t2 := if ns = "Done" then { t1 with completed := true } else t1
              Except.ok (c.set i t2, s!"Task promoted to {ns}")
            else Except.ok (c, "Task is already in the last column.")
        else Except.ok (c, "Invalid task number.")
    else Except.ok (c, "Invalid task number.")

/-- Menu operation `regress_task` (checklistplusplus.py lines 612-633),
modelled as `promote_task` is. -/
def regress_task (kanbanView : Bool) (numStr : String) (c : List Task) :
    Except Unit (List Task × String) :=
  let sortedOpt := if kanbanView then some c else display_checklist_sorted c
  match pyInt numStr with
  | none => Except.ok (c, "Please enter a valid number.")
  | some n =>
    let task_num := n - 1
    if 0 ≤ task_num then
      match sortedOpt with
      | none => Except.error ()
      | some sc =>
        if task_num < (sc.length : Int) then
          let i := task_num.toNat
          let t := c.getD i default
          let st := status_for_task t
          match pyIndex KANBAN_COLUMNS st with
          | none => Except.ok (c, "Please enter a valid number.")
          | some idx =>
            if idx > 0 then
              let ns := KANBAN_COLUMNS.getD (idx - 1) ""
              let t1 := { t with status := some ns }
              let t2 := if st = "Done" then { t1 with completed := false } else t1
              Except.ok (c.set i t2, s!"Task regressed to {ns}")
            else Except.ok (c, "Task is already in the first column.")
        else Except.ok (c, "Invalid task number.")
    else Except.ok (c, "Invalid task number.")

/-- Menu operation `mark_task` (checklistplusplus.py lines 327-341): the
task is taken from the sorted view and mutated in place (`completed := true`
only; the menu path does not touch `status`). On an empty checklist the
sorted view is None and `len(None)` raises an uncaught TypeError. -/
def mark_task (numStr : String) (c : List Task) :
    Except Unit (List Task × String) :=
  let sortedOpt := display_checklist_enum c
  match pyInt numStr with
  | none => Except.ok (c, "Please enter a valid number.")
  | some n =>
    let task_num := n - 1
    if 0 ≤ task_num then
      match sortedOpt with
      | none => Except.error ()
      | some sc =>
        if task_num < (sc.length : Int) then
          let p := sc.getD task_num.toNat (0, default)
          let tname := p.2.task
          Except.ok (c.set p.1 { p.2 with completed := true },
            s!"Task '{tname}' marked as completed.")
        else Except.ok (c, "Invalid task number.")
    else Except.ok (c, "Invalid task number.")

/-- The `promote`/`p` branch of `process_simple_commands`
(checklistplusplus.py lines 713-736): parses `args[0]`, checks the
zero-based index against `current_checklist`, advances `status` to the next
column — and, unlike the menu path, never touches `completed`. A ValueError
or IndexError (non-numeric input, missing argument, status missing from
KANBAN_COLUMNS) is caught and reported. -/
def cmdPromote (args : List String) (c : List Task) : List Task × String :=
  match args with
  | [] => (c, "Please provide a valid task number.")
  | a :: _ =>
    match pyInt a with
    | none => (c, "Please provide a valid task number.")
    | some n =>
      let task_id := n - 1
      if 0 ≤ task_id ∧ task_id < (c.length : Int) then
        let t := c.getD task_id.toNat default
        match pyIndex KANBAN_COLUMNS (status_for_task t) with
        | none => (c, "Please provide a valid task number.")
        | some idx =>
          if idx < KANBAN_COLUMNS.length - 1 then
            let ns := KANBAN_COLUMNS.getD (idx + 1) ""
            (c.set task_id.toNat { t with status := some ns },
              s!"Task promoted to {ns}")
          else (c, "Task is already in the last column.")
      else (c, "Invalid task number.")

/-- The `regress`/`r` branch of `process_simple_commands`
(checklistplusplus.py lines 737-763): moves `status` back one column and,
when moving back from Done, sets `completed := false`. -/
def cmdRegress (args : List String) (c : List Task) : List Task × String :=
  match args with
  | [] => (c, "Please provide a valid task number.")
  | a :: _ =>
    match pyInt a with
    | none => (c, "Please provide a valid task number.")
    | some n =>
      let task_id := n - 1
      if 0 ≤ task_id ∧ task_id < (c.length : Int) then
        let t := c.getD task_id.toNat default
        let st := status_for_task t
        match pyIndex KANBAN_COLUMNS st with
        | none => (c, "Please provide a valid task number.")
        | some idx =>
          if idx > 0 then
            let ns := KANBAN_COLUMNS.getD (idx - 1) ""
            let t1 := { t with status := some ns }
            let t2 := if st = "Done" then { t1 with completed := false } else t1
            (c.set task_id.toNat t2, s!"Task regressed to {ns}")
          else (c, "Task is already in the first column.")
      else (c, "Invalid task number.")

/-- The `delete`/`d` branch of `process_simple_commands`
(checklistplusplus.py lines 764-781): `current_checklist.pop(task_id)`. -/
def cmdDelete (args : List String) (c : List Task) : List Task × String :=
  match args with
  | [] => (c, "Please provide a valid task number.")
  | a :: _ =>
    match pyInt a with
    | none => (c, "Please provide a valid task number.")
    | some n =>
      let task_id := n - 1
      if 0 ≤ task_id ∧ task_id < (c.length : Int) then
        let tname := (c.getD task_id.toNat default).task
        (c.eraseIdx task_id.toNat, s!"Deleted: {tname}")
      else (c, "Invalid task number.")

/-- The `mark`/`m` branch of `process_simple_commands`
(checklistplusplus.py lines 782-801): sets `completed := true` and also
`status := "Done"`. -/
def cmdMark (args : List String) (c : List Task) : List Task × String :=
  match args with
  | [] => (c, "Please provide a valid task number.")
  | a :: _ =>
    match pyInt a with
    | none => (c, "Please provide a valid task number.")
    | some n =>
      let task_id := n - 1
      if 0 ≤ task_id ∧ task_id < (c.length : Int) then
        let t := c.getD task_id.toNat default
        let tname := t.task
        (c.set task_id.toNat { t with completed := true, status := some "Done" },
          s!"Marked task '{tname}' as completed.")
      else (c, "Invalid task number.")

/-- `add_task_with_args` (checklistplusplus.py lines 666-700): joins the
arguments with spaces, rejects empty text, truncates to the configured
taskname limit, and appends a new task with priority Medium,
`completed = false` and explicit status "Todo". -/
def add_task_with_args (tasknameLimit : Nat) (args : List String)
    (c : List Task) : List Task × String :=
  let text := " ".intercalate args
  if text = "" then (c, "Error: Task text required")
  else
    let text :=
      if text.data.length > tasknameLimit then String.mk (text.data.take tasknameLimit)
      else text
    (c ++ [{ task := text, completed := false, start_time := 0, time_spent := 0,
             priority := "Medium", progress := 0, status := some "Todo",
             due_date := none, tags := none }],
     s!"Added task: {text}")

/-- The configured per-column limits (CONFIG["limits"], defaults
todo=10, progress=3, done=10, taskname=40). -/
structure Limits where
  todo : Nat
  progress : Nat
  done : Nat
deriving Repr, DecidableEq

/-- The per-column task counter built by `enforce_column_limits`
(checklistplusplus.py lines 493-496): a dict from status string to count,
incremented at `_status_for_task item` for each task. -/
def countColumns (tasks : List Task) : String → Nat :=
  tasks.foldl
    (fun counts item =>
      fun s => if s = status_for_task item then counts s + 1 else counts s)
    (fun _ => 0)

/-- The Todo warning string of `enforce_column_limits` (line 500). -/
def warnTodo (n limit : Nat) : String :=
  s!"Todo column has {n} tasks, exceeding limit of {limit}"

/-- The Progress warning string of `enforce_column_limits` (line 503). -/
def warnProgress (n limit : Nat) : String :=
  s!"Progress column has {n} tasks, exceeding limit of {limit}"

/-- The Done warning string of `enforce_column_limits` (line 506). -/
def warnDone (n limit : Nat) : String :=
  s!"Done column has {n} tasks, exceeding limit of {limit}"

/-- `enforce_column_limits` (checklistplusplus.py lines 488-508): count the
tasks per column and append one warning per column whose count exceeds its
configured limit, in the order Todo, Progress, Done. -/
def enforce_column_limits (limits : Limits) (sorted_tasks : List Task) :
    List String :=
  let counts := countColumns sorted_tasks
  (if counts "Todo" > limits.todo then [warnTodo (counts "Todo") limits.todo] else []) ++
  (if counts "Progress" > limits.progress then
    [warnProgress (counts "Progress") limits.progress] else []) ++
  (if counts "Done" > limits.done then [warnDone (counts "Done") limits.done] else [])

/-- A JSON value tree, the contents of a checklist file: `json.dump` writes
the in-memory list of task dicts as such a tree and `json.load` reads it
back unchanged (floats are modelled as integers, see the module comment). -/
inductive Json where
  | null : Json
  | bool : Bool → Json
  | int : Int → Json
  | str : String → Json
  | arr : List Json → Json
  | obj : List (String × Json) → Json
deriving Inhabited

/-- Key lookup in a JSON object (a Python dict holds each key once). -/
def getField : List (String × Json) → String → Option Json
  | [], _ => none
  | (k, v) :: rest, key => if k = key then some v else getField rest key

/-- The JSON object a task dict serializes to: the six always-present keys,
then the optional keys only when present. -/
def encodeTask (t : Task) : Json :=
  Json.obj
    ([("task", Json.str t.task), ("completed", Json.bool t.completed),
      ("start_time", Json.int t.start_time), ("time_spent", Json.int t.time_spent),
      ("priority", Json.str t.priority), ("progress", Json.int t.progress)]
     ++ (match t.status with | some s => [("status", Json.str s)] | none => [])
     ++ (match t.due_date with | some d => [("due_date", Json.str d)] | none => [])
     ++ (match t.tags with
         | some ts => [("tags", Json.arr (ts.map Json.str))]
         | none => []))

/-- Read back a list of strings (the `tags` array). -/
def decodeStrList : List Json → Option (List String)
  | [] => some []
  | Json.str s :: rest => (decodeStrList rest).map (s :: ·)
  | _ => none

/-- Read an optional string key back off a JSON object. -/
def decodeOptStr (f : List (String × Json)) (key : String) :
    Option (Option String) :=
  match getField f key with
  | none => some none
  | some (Json.str s) => some (some s)
  | some _ => none

/-- Read a task dict back off its JSON object. -/
def decodeTask (j : Json) : Option Task :=
  match j with
  | Json.obj f =>
    match getField f "task", getField f "completed", getField f "start_time",
          getField f "time_spent", getField f "priority", getField f "progress" with
    | some (Json.str task), some (Json.bool completed), some (Json.int st),
      some (Json.int ts), some (Json.str pr), some (Json.int pg) =>
      match decodeOptStr f "status", decodeOptStr f "due_date" with
      | some status, some due =>
        match getField f "tags" with
        | none =>
          some { task := task, completed := completed, start_time := st,
                 time_spent := ts, priority := pr, progress := pg,
                 status := status, due_date := due, tags := none }
        | some (Json.arr xs) =>
          match decodeStrList xs with
          | some tags =>
            some { task := task, completed := completed, start_time := st,
                   time_spent := ts, priority := pr, progress := pg,
                   status := status, due_date := due, tags := some tags }
          | none => none
        | some _ => none
      | _, _ => none
    | _, _, _, _, _, _ => none
  | _ => none

/-- Serialize a checklist: a JSON array of task objects, in order. -/
def encodeChecklist (c : List Task) : Json := Json.arr (c.map encodeTask)

/-- Read a checklist back off a JSON array. -/
def decodeTasks : List Json → Option (List Task)
  | [] => some []
  | j :: rest =>
    match decodeTask j, decodeTasks rest with
    | some t, some ts => some (t :: ts)
    | _, _ => none

/-- Read a serialized checklist. -/
def decodeChecklist : Json → Option (List Task)
  | Json.arr xs => decodeTasks xs
  | _ => none

/-- The checklist directory: each name either has a backing JSON file or
does not. -/
def Store := String → Option Json

/-- `save_checklist` (checklistplusplus.py lines 216-221): serialize the
full checklist and overwrite `<data_dir>/<name>.json`. -/
def save_checklist (store : Store) (name : String) (c : List Task) : Store :=
  fun n => if n = name then some (encodeChecklist c) else store n

/-- `load_checklist` (checklistplusplus.py lines 200-213): when the file
exists, read it; otherwise start a new empty checklist and immediately
persist it. -/
def load_checklist (store : Store) (name : String) :
    Option (List Task) × Store :=
  match store name with
  | some j => (decodeChecklist j, store)
  | none => (some [], save_checklist store name [])

/-- Python slicing `s[a:b]` by code points. -/
def pySubstr (s : String) (a b : Nat) : String :=
  String.mk ((s.data.drop a).take (b - a))

/-- Python slicing `s[a:]` by code points. -/
def pyDropChars (s : String) (a : Nat) : String :=
  String.mk (s.data.drop a)

/-- Leap years of the Gregorian calendar (for `%d` validation). -/
def isLeapYear (y : Nat) : Bool :=
  (y % 4 == 0 && y % 100 != 0) || y % 400 == 0

/-- Days per month (for `%d` validation). -/
def daysInMonth (y m : Nat) : Nat :=
  if m = 2 then (if isLeapYear y then 29 else 28)
  else if m = 4 ∨ m = 6 ∨ m = 9 ∨ m = 11 then 30 else 31

/-- Model of `datetime.strptime(s, "%Y-%m-%d")` succeeding: four year
digits, one or two month and day digits, month 1-12, day valid for the
month. -/
def isValidDate (s : String) : Bool :=
  match pySplit s "-" with
  | [ys, ms, ds] =>
    allDigits ys.data && allDigits ms.data && allDigits ds.data &&
    ys.data.length == 4 && ms.data.length ≤ 2 && ds.data.length ≤ 2 &&
    (let y := digitsToNat ys.data
     let m := digitsToNat ms.data
     let d := digitsToNat ds.data
     1 ≤ m && m ≤ 12 && 1 ≤ d && d ≤ daysInMonth y m)
  | _ => false

/-- One iteration of the `import_from_markdown` parsing loop
(checklistplusplus.py lines 1253-1315) over a raw line: section headers
`## <Column>` switch the current section; checkbox lines are parsed into a
task. The source compares `checkbox = line[3:5]` — a TWO-character slice —
against the three-character strings "[ ]" and "[x]", exactly as written
here. -/
def importLine (st : String × List Task) (rawLine : String) :
    String × List Task :=
  let sect := st.1
  let tasks := st.2
  let line := pyStrip rawLine
  if pyStartsWith line "## " then
    let potential := pyStrip (pyDropChars line 3)
    if potential ∈ KANBAN_COLUMNS then (potential, tasks) else (sect, tasks)
  else if pyStartsWith line "- [" then
    if line.data.length < 6 then (sect, tasks)
    else
      let checkbox := pySubstr line 3 5
      if checkbox ≠ "[ ]" ∧ checkbox ≠ "[x]" then (sect, tasks)
      else
        let text0 := pyStrip (pyDropChars line 6)
        if text0 = "" then (sect, tasks)
        else
          let pr :=
            if pyStartsWith text0 "🔴" then ("High", pyStrip (pyDropChars text0 1))
            else if pyStartsWith text0 "🟡" then ("Medium", pyStrip (pyDropChars text0 1))
            else if pyStartsWith text0 "🟢" then ("Low", pyStrip (pyDropChars text0 1))
            else ("Medium", text0)
          let parts := pySplit pr.2 " due:"
          let td :=
            match parts with
            | p0 :: p1 :: _ =>
              (pyStrip p0, if isValidDate (pyStrip p1) then some (pyStrip p1) else none)
            | _ => (pr.2, none)
          let newTask : Task :=
            { task := td.1, completed := checkbox == "[x]", start_time := 0,
              time_spent := 0, priority := pr.1,
              progress := if sect = "Todo" then 0
                          else (if sect = "Done" then 100 else 50),
              status := some sect, due_date := td.2, tags := none }
          (sect, tasks ++ [newTask])
  else (sect, tasks)

/-- `import_from_markdown` over the file's lines (from `readlines`):
fold the parsing loop starting in section "Todo", appending parsed tasks
to the current checklist. -/
def import_from_markdown (lines : List String) (c : List Task) : List Task :=
  (lines.foldl importLine ("Todo", c)).2

/-- A fresh derived-status Todo task (no explicit status key). -/
def sampleTodo : Task :=
  { task := "a", completed := false, start_time := 0, time_spent := 0,
    priority := "Medium", progress := 0, status := none,
    due_date := none, tags := none }

/-- A task with explicit status Progress and `completed = false`. -/
def sampleProgress : Task :=
  { task := "b", completed := false, start_time := 0, time_spent := 0,
    priority := "Medium", progress := 0, status := some "Progress",
    due_date := none, tags := none }

/-- A task with an explicit status outside the three column names. -/
def sampleBadStatus : Task :=
  { task := "weird", completed := false, start_time := 0, time_spent := 0,
    priority := "Medium", progress := 0, status := some "Blocked",
    due_date := none, tags := none }

/-- A High-priority task (for the display-order claims). -/
def sampleHigh : Task :=
  { task := "h", completed := false, start_time := 0, time_spent := 0,
    priority := "High", progress := 0, status := none,
    due_date := none, tags := none }

/-- A Medium-priority task (for the display-order claims). -/
def sampleMedium : Task :=
  { task := "m", completed := false, start_time := 0, time_spent := 0,
    priority := "Medium", progress := 0, status := none,
    due_date := none, tags := none }

end ChecklistPP

namespace ChecklistPP

/-- C1: for a task with no explicit status field, status_for_task returns
Done iff completed is true, else Progress iff progress is positive, else
Todo; for a task with an explicit status field, that stored value is
returned verbatim regardless of completed and progress. -/
theorem C1_status_derivation (t : Task) :
    (t.status = none →
      ((status_for_task t = "Done" ↔ t.completed = true) ∧
       (t.completed = false → (status_for_task t = "Progress" ↔ t.progress > 0)) ∧
       (t.completed = false → ¬ t.progress > 0 → status_for_task t = "Todo"))) ∧
    (∀ s : String, t.status = some s → status_for_task t = s) := by
  constructor
  · intro hnone
    by_cases hc : t.completed <;> by_cases hp : t.progress > 0 <;>
      simp [status_for_task, hnone, hc, hp]
  · intro s hs
    simp [status_for_task, hs]

/-- Witness for C1 at concrete tasks: a derived-status task with
completed = true is in the Done column. -/
theorem C1_status_derivation_witness :
    status_for_task
      { task := "t", completed := true, start_time := 0, time_spent := 0,
        priority := "Medium", progress := 0, status := none,
        due_date := none, tags := none } = "Done" :=
  ((C1_status_derivation _).1 rfl).1.mpr rfl

/-- C2 fails as stated: on the `promote` command-verb path, promoting a
Progress task sets its status to Done but leaves `completed` false — the
dispatcher branch, unlike the menu operation, never sets `completed`. -/
theorem C2_command_promote_counterexample :
    ((cmdPromote ["1"] [sampleProgress]).1.getD 0 default).status = some "Done" ∧
    ((cmdPromote ["1"] [sampleProgress]).1.getD 0 default).completed = false := by
  decide

/-- C2 amended: for every valid one-based index, both promote paths move the
addressed task one column forward and leave a Done task unchanged (message
only); the menu operation (`promote_step`, the task-level core of
`promote_task`) additionally sets `completed := true` on reaching Done,
while the `promote`/`p` command verb sets only `status` and leaves
`completed` unchanged. -/
theorem C2_promote_paths (c : List Task) (a : String) (rest : List String)
    (n : Int) (hp : pyInt a = some n) (h1 : 0 ≤ n - 1)
    (h2 : n - 1 < (c.length : Int)) :
    (status_for_task (c.getD (n - 1).toNat default) = "Todo" →
      cmdPromote (a :: rest) c =
        (c.set (n - 1).toNat
          { c.getD (n - 1).toNat default with status := some "Progress" },
         "Task promoted to Progress") ∧
      promote_step (c.getD (n - 1).toNat default) =
        { c.getD (n - 1).toNat default with status := some "Progress" }) ∧
    (status_for_task (c.getD (n - 1).toNat default) = "Progress" →
      cmdPromote (a :: rest) c =
        (c.set (n - 1).toNat
          { c.getD (n - 1).toNat default with status := some "Done" },
         "Task promoted to Done") ∧
      promote_step (c.getD (n - 1).toNat default) =
        { c.getD (n - 1).toNat default with
          status := some "Done"
          completed := true }) ∧
    (status_for_task (c.getD (n - 1).toNat default) = "Done" →
      cmdPromote (a :: rest) c = (c, "Task is already in the last column.") ∧
      promote_step (c.getD (n - 1).toNat default) =
        c.getD (n - 1).toNat default) := by
  have hcond : 0 ≤ n - 1 ∧ n - 1 < (c.length : Int) := ⟨h1, h2⟩
  refine ⟨?_, ?_, ?_⟩ <;> intro hst <;>
    simp only [cmdPromote, promote_step, hp, if_pos hcond, hst] <;>
    exact ⟨rfl, rfl⟩

/-- Witness for C2 at a concrete input: promoting the only (Progress) task
of a one-task checklist by the command verb sets only its status. -/
theorem C2_promote_paths_witness :
    cmdPromote ["1"] [sampleProgress] =
      ([{ sampleProgress with status := some "Done" }], "Task promoted to Done") :=
  ((C2_promote_paths [sampleProgress] "1" [] 1 (by decide) (by decide)
    (by decide)).2.1 (by decide)).1

/-- C3: on a task whose column is Todo or Progress, promote then regress
restores the original column, and restores the original `completed` value
except that a promote that reached Done leaves `completed = false` after the
regress; a task already at Done is left unchanged by promote. -/
theorem C3_promote_regress_roundtrip (t : Task)
    (h : status_for_task t = "Todo" ∨ status_for_task t = "Progress") :
    status_for_task (regress_step (promote_step t)) = status_for_task t ∧
    (regress_step (promote_step t)).completed =
      (if status_for_task (promote_step t) = "Done" then false
       else t.completed) ∧
    ∀ u : Task, status_for_task u = "Done" → promote_step u = u := by
  have done_noop : ∀ u : Task, status_for_task u = "Done" → promote_step u = u := by
    intro u hu
    simp only [promote_step, hu]
    rfl
  rcases h with h | h
  · have hpro : promote_step t = { t with status := some "Progress" } := by
      simp only [promote_step, h]
      rfl
    have hreg : regress_step { t with status := some "Progress" } =
        { t with status := some "Todo" } := by
      simp only [regress_step, status_for_task]
      rfl
    refine ⟨?_, ?_, done_noop⟩
    · rw [hpro, hreg, h]
      rfl
    · rw [hpro, hreg]
      rfl
  · have hpro : promote_step t =
        { t with status := some "Done", completed := true } := by
      simp only [promote_step, h]
      rfl
    have hreg : regress_step { t with status := some "Done", completed := true } =
        { t with status := some "Progress", completed := false } := by
      simp only [regress_step, status_for_task]
      rfl
    refine ⟨?_, ?_, done_noop⟩
    · rw [hpro, hreg, h]
      rfl
    · rw [hpro, hreg]
      rfl

/-- Witness for C3 at a concrete input: a fresh derived-Todo task
round-trips through promote then regress. -/
theorem C3_promote_regress_roundtrip_witness :
    status_for_task (regress_step (promote_step sampleTodo)) =
      status_for_task sampleTodo ∧
    (regress_step (promote_step sampleTodo)).completed =
      (if status_for_task (promote_step sampleTodo) = "Done" then false
       else sampleTodo.completed) ∧
    ∀ u : Task, status_for_task u = "Done" → promote_step u = u :=
  C3_promote_regress_roundtrip sampleTodo (Or.inl rfl)

/-- C4: starting from an empty checklist, the `add` command with text
"Write report" creates exactly one task with priority Medium and
`completed = false` in the Todo column; `mark 1` then sets
`completed = true` and `status = "Done"`, after which the Todo column is
empty. -/
theorem C4_add_mark_scenario :
    ((add_task_with_args 40 ["Write", "report"] []).1.length = 1 ∧
     ((add_task_with_args 40 ["Write", "report"] []).1.getD 0 default).priority
       = "Medium" ∧
     ((add_task_with_args 40 ["Write", "report"] []).1.getD 0 default).completed
       = false ∧
     status_for_task
       ((add_task_with_args 40 ["Write", "report"] []).1.getD 0 default)
       = "Todo") ∧
    (((cmdMark ["1"] (add_task_with_args 40 ["Write", "report"] []).1).1.getD 0
        default).completed = true ∧
     ((cmdMark ["1"] (add_task_with_args 40 ["Write", "report"] []).1).1.getD 0
        default).status = some "Done" ∧
     ((cmdMark ["1"] (add_task_with_args 40 ["Write", "report"] []).1).1.filter
        (fun u => status_for_task u == "Todo")).length = 0) := by
  decide

/-- C5: enforce_column_limits yields no warning exactly when every column
count is within its limit; it yields one warning per exceeded column — the
total warning count equals the number of exceeded columns and each exceeded
column contributes its message naming the column, the count and the
limit. -/
theorem C5_column_limit_warnings (L : Limits) (ts : List Task) :
    (enforce_column_limits L ts = [] ↔
      countColumns ts "Todo" ≤ L.todo ∧ countColumns ts "Progress" ≤ L.progress ∧
        countColumns ts "Done" ≤ L.done) ∧
    (enforce_column_limits L ts).length =
      ((if L.todo < countColumns ts "Todo" then 1 else 0) +
       (if L.progress < countColumns ts "Progress" then 1 else 0) +
       (if L.done < countColumns ts "Done" then 1 else 0)) ∧
    (L.todo < countColumns ts "Todo" →
      warnTodo (countColumns ts "Todo") L.todo ∈ enforce_column_limits L ts) ∧
    (L.progress < countColumns ts "Progress" →
      warnProgress (countColumns ts "Progress") L.progress ∈
        enforce_column_limits L ts) ∧
    (L.done < countColumns ts "Done" →
      warnDone (countColumns ts "Done") L.done ∈ enforce_column_limits L ts) := by
  unfold enforce_column_limits
  by_cases h1 : L.todo < countColumns ts "Todo" <;>
    by_cases h2 : L.progress < countColumns ts "Progress" <;>
      by_cases h3 : L.done < countColumns ts "Done" <;>
        (simp [h1, h2, h3, Nat.not_lt]; try omega)

/-- C6 fails as stated (and the code contradicts its own comment, which
promises a High, Medium, Low order): the list view sorts by the raw
priority string descending, so a Medium task is listed before a High
task. -/
theorem C6_display_order_bug :
    sorted_checklist [sampleHigh, sampleMedium] = [sampleMedium, sampleHigh] ∧
    sampleHigh.priority = "High" ∧ sampleMedium.priority = "Medium" := by
  decide

/-- C7 fails on the code: importing the markdown scenario file appends no
task at all, because the source compares the two-character slice
`line[3:5]` (here the string " ]") against the three-character strings
"[ ]" and "[x]" and skips every checkbox line. -/
theorem C7_import_scenario_bug :
    import_from_markdown
      ["## Progress\n", "- [ ] 🔴 Fix bug due:2025-01-01\n"] [] = [] ∧
    pySubstr (pyStrip "- [ ] 🔴 Fix bug due:2025-01-01\n") 3 5 = " ]" := by
  decide

/-- A tags array reads back to the list it was written from. -/
theorem decodeStrList_map (l : List String) :
    decodeStrList (l.map Json.str) = some l := by
  induction l with
  | nil => rfl
  | cons h t ih => simp [decodeStrList, ih]

/-- A task object reads back to the task it was written from. -/
theorem decodeTask_encodeTask (t : Task) : decodeTask (encodeTask t) = some t := by
  rcases t with ⟨task, completed, st, ts, pr, pg, status, due, tags⟩
  cases status <;> cases due <;> cases tags <;>
    simp [encodeTask, decodeTask, decodeOptStr, getField, decodeStrList_map]

/-- A serialized checklist reads back to the checklist it was written
from. -/
theorem decodeTasks_map_encode (c : List Task) :
    decodeTasks (c.map encodeTask) = some c := by
  induction c with
  | nil => rfl
  | cons h t ih => simp [decodeTasks, decodeTask_encodeTask, ih]

/-- C8: saving a checklist under a name and loading it back under the same
name yields a field-for-field identical ordered sequence of task
records. -/
theorem C8_store_roundtrip (store : Store) (name : String) (c : List Task) :
    (load_checklist (save_checklist store name c) name).1 = some c := by
  unfold load_checklist save_checklist
  simp [decodeChecklist, encodeChecklist, decodeTasks_map_encode]

/-- C9 fails on the code at one family of inputs: on an EMPTY checklist in
checklist view, the menu mark/promote/regress operations with index input
"1" (out of range, since there are no tasks) crash with an uncaught
TypeError — `display_checklist()` returns None and `len(None)` is not a
ValueError — instead of printing the handled error message; the command-verb
paths handle the same input as the claim describes. -/
theorem C9_menu_bad_index_crash :
    mark_task "1" [] = Except.error () ∧
    promote_task false "1" [] = Except.error () ∧
    regress_task false "1" [] = Except.error () ∧
    cmdMark ["1"] [] = ([], "Invalid task number.") ∧
    cmdPromote ["1"] [] = ([], "Invalid task number.") ∧
    cmdRegress ["1"] [] = ([], "Invalid task number.") ∧
    cmdDelete ["1"] [] = ([], "Invalid task number.") :=
  ⟨rfl, rfl, rfl, rfl, rfl, rfl, rfl⟩

/-- A string absent from a list has no index in it (Python `list.index`
raises ValueError). -/
theorem pyIndex_eq_none_of_not_mem (l : List String) (x : String)
    (h : x ∉ l) : pyIndex l x = none := by
  induction l with
  | nil => rfl
  | cons y ys ih =>
    have hyx : ¬ y = x := by
      rintro rfl
      exact h (List.mem_cons_self y ys)
    have hys : x ∉ ys := fun hm => h (List.mem_cons_of_mem y hm)
    simp [pyIndex, hyx, ih hys]

/-- Inserting one task grows the sorted list by one. -/
theorem insertDescBy_length (k : Task → String) (x : Task) (l : List Task) :
    (insertDescBy k x l).length = l.length + 1 := by
  induction l with
  | nil => rfl
  | cons y ys ih =>
    simp only [insertDescBy]
    split <;> simp [ih]

/-- The sorted view of `display_checklist` has the same length as the
checklist. -/
theorem sorted_checklist_length (c : List Task) :
    (sorted_checklist c).length = c.length := by
  unfold sorted_checklist
  suffices h : ∀ acc : List Task,
      (c.foldl (fun acc x => insertDescBy priorityKey x acc) acc).length =
        c.length + acc.length by
    simpa using h []
  induction c with
  | nil => intro acc; simp
  | cons y ys ih =>
    intro acc
    simp only [List.foldl_cons, List.length_cons]
    rw [ih (insertDescBy priorityKey y acc), insertDescBy_length]
    omega

/-- C10: promoting or regressing a task whose explicit status is outside
the three column names does not crash: the failed column lookup raises
ValueError before any mutation, the same handler that catches non-numeric
input reports it (the dispatcher paths print the same message as for a
non-numeric index, shown by the third conjunct), and the checklist is
returned unchanged on the command-verb and the menu paths alike. -/
theorem C10_invalid_status_handled (c : List Task) (a : String)
    (rest : List String) (n : Int) (s : String)
    (hp : pyInt a = some n) (h1 : 0 ≤ n - 1) (h2 : n - 1 < (c.length : Int))
    (hs : (c.getD (n - 1).toNat default).status = some s)
    (hbad : s ∉ KANBAN_COLUMNS) :
    cmdPromote (a :: rest) c = (c, "Please provide a valid task number.") ∧
    cmdRegress (a :: rest) c = (c, "Please provide a valid task number.") ∧
    cmdPromote ("oops" :: rest) c = (c, "Please provide a valid task number.") ∧
    promote_task true a c = Except.ok (c, "Please enter a valid number.") ∧
    regress_task true a c = Except.ok (c, "Please enter a valid number.") ∧
    promote_task false a c = Except.ok (c, "Please enter a valid number.") ∧
    regress_task false a c = Except.ok (c, "Please enter a valid number.") := by
  have hstat : status_for_task (c.getD (n - 1).toNat default) = s := by
    unfold status_for_task
    rw [hs]
  have hidx : pyIndex KANBAN_COLUMNS s = none :=
    pyIndex_eq_none_of_not_mem _ _ hbad
  have hcond : 0 ≤ n - 1 ∧ n - 1 < (c.length : Int) := ⟨h1, h2⟩
  have hoops : pyInt "oops" = none := by decide
  have hne : c.isEmpty = false := by
    cases c with
    | nil =>
      exfalso
      simp only [List.length_nil, Nat.cast_zero] at h2
      omega
    | cons y ys => rfl
  have hlen : ((sorted_checklist c).length : Int) = (c.length : Int) := by
    rw [sorted_checklist_length]
  have hdisp : display_checklist_sorted c = some (sorted_checklist c) := by
    unfold display_checklist_sorted
    rw [hne, if_neg (by decide : ¬(false = true))]
  refine ⟨?_, ?_, ?_, ?_, ?_, ?_, ?_⟩
  · simp only [cmdPromote, hp, if_pos hcond, hstat, hidx]
  · simp only [cmdRegress, hp, if_pos hcond, hstat, hidx]
  · simp only [cmdPromote, hoops]
  · simp only [promote_task, hp, if_pos h1, if_pos (rfl : true = true),
      if_pos True.intro]
    rw [if_pos h2, hstat, hidx]
  · simp only [regress_task, hp, if_pos h1, if_pos (rfl : true = true),
      if_pos True.intro]
    rw [if_pos h2, hstat, hidx]
  · simp only [promote_task, hp, if_pos h1,
      if_neg (by decide : ¬(false = true)), if_neg not_false, hdisp]
    rw [hlen, if_pos h2, hstat, hidx]
  · simp only [regress_task, hp, if_pos h1,
      if_neg (by decide : ¬(false = true)), if_neg not_false, hdisp]
    rw [hlen, if_pos h2, hstat, hidx]

/-- Witness for C10 at a concrete input: promoting the only task of a
checklist whose explicit status is "Blocked" leaves the checklist unchanged
with the handled error message. -/
theorem C10_invalid_status_handled_witness :
    cmdPromote ["1"] [sampleBadStatus] =
      ([sampleBadStatus], "Please provide a valid task number.") :=
  (C10_invalid_status_handled [sampleBadStatus] "1" [] 1 "Blocked" (by decide)
    (by decide) (by decide) rfl (by decide)).1

end ChecklistPP
